import Mathlib

/-!
# gonode: a Go node answering an Erlang peer

A shallow embedding of `go_src/gonode.go`: the gen_server callbacks of `srv`
(`Init`, `HandleCast`, `HandleCall`, `HandleInfo`, `Terminate`), the RPC closure
`eClos` and the driver `main`.

Effects are made explicit.  Every callback returns an `Outcome`: the events it
performed in order (log lines, calls on the node handle, completed channel
writes), the actor state it leaves, and how it ended (returned, panicked, or
suspended on a channel send).  The channel `completeChan` is unbuffered, so a
send completes only against a goroutine that is suspended in a receive on the
same channel; the `World` records which receives are pending.
-/

namespace GoNode

/-! ## Data model -/

/-- Channel handle: the identity of a channel created by `make(chan bool)`. -/
structure Chan where
  id : Nat
deriving DecidableEq, Repr

/-- Modelled from the spec: the process identity `etf.Pid` is declared in the
etf package, which is not among the sources.  The spec describes it as an
opaque, network-unique handle referring to one mailbox. -/
structure Pid where
  id : Nat
deriving DecidableEq, Repr

/-- Modelled from the spec: `etf.Term` is declared in the etf package, which is
not among the sources; it is the empty interface, so a term is any dynamically
typed Go value.  The constructors are the dynamic types the program tells
apart (`etf.Atom`, `etf.Tuple`, `etf.Pid`, `int`, `chan bool`) together with
the other shapes the spec lists (lists) and the plain Go values the program
hands to the logger (strings, errors, argument slices, the nil interface). -/
inductive Term where
  | nil
  | atom (name : String)
  | tuple (elems : List Term)
  | list (elems : List Term)
  | pid (p : Pid)
  | int (n : Int)
  | str (s : String)
  | err (msg : String)
  | chanBool (c : Option Chan)
  | slice (elems : List Term)

/-- Observable actions, in program order. -/
inductive Event where
  /-- Records `log.Printf(format, args...)`. -/
  | log (format : String) (args : List Term)
  /-- Records `log.Println(args...)` and the print step of `log.Fatal`. -/
  | logln (args : List Term)
  /-- Records `os.Exit(code)`, reached through `log.Fatal` and `log.Fatalf`. -/
  | exit (code : Nat)
  /-- Records `os.Create(path)`. -/
  | osCreate (path : String)
  /-- Records `log.SetOutput(f)` for the file created at `path`. -/
  | setLogOutput (path : String)
  /-- Records the buffered write and flush of `content` to the file at `path`. -/
  | fileWrite (path : String) (content : String)
  /-- Records `file.Close()`. -/
  | fileClose (path : String)
  /-- Records `node.NewNode(name, cookie)`. -/
  | newNode (name : String) (cookie : String)
  /-- Records `enode.Publish(port)`. -/
  | publish (port : Int)
  /-- Records `make(chan bool)` yielding channel `c`. -/
  | makeChan (c : Chan)
  /-- Records `enode.Spawn(eSrv, args...)`. -/
  | spawn (args : List Term)
  /-- Records `enode.RpcProvide(modName, funName, closure)`. -/
  | rpcProvide (modName : String) (funName : String)
  /-- Records `gs.Node.Register(name, pid)`. -/
  | register (name : Term) (pid : Pid)
  /-- Records `gs.Node.Send(dest, msg)`. -/
  | send (dest : Pid) (msg : Term)
  /-- Records a completed send of `v` on channel `c`. -/
  | chanSend (c : Chan) (v : Bool)

/-- The receives that are pending: one entry per goroutine suspended in
`<-c`. -/
structure World where
  recvWaiting : List Chan
deriving DecidableEq, Repr

/-- The actor: the struct `srv`, embedding `node.GenServerImpl` and holding the
field `completeChan chan bool`.  Of the embedded `GenServerImpl` the program reads `Self`; calls on its `Node`
field are recorded as events.  A nil channel is `none`. -/
structure srv where
  Self : Pid
  completeChan : Option Chan
deriving DecidableEq, Repr

/-- How a callback ends. -/
inductive Result (α : Type) where
  | returned (value : α)
  | panicked (msg : String)
  | blocked (ch : Option Chan)

/-- What a callback did: events in order, pending receives left, actor state
left, and how it ended. -/
structure Outcome (α : Type) where
  events : List Event
  world : World
  state : srv
  result : Result α

/-- The statement `c <- v` on an unbuffered channel.  A nil channel suspends
the sender for ever; otherwise the send completes against one pending receive
on `c`, and suspends the sender when there is none. -/
def chanSendStmt (pre : List Event) (gs : srv) (w : World) (c : Option Chan) (v : Bool) :
    Outcome Unit :=
  match c with
  | none => ⟨pre, w, gs, .blocked none⟩
  | some ch =>
    if ch ∈ w.recvWaiting then
      ⟨pre ++ [Event.chanSend ch v], ⟨w.recvWaiting.erase ch⟩, gs, .returned ()⟩
    else
      ⟨pre, w, gs, .blocked (some ch)⟩

/-! ## The gen_server callbacks -/

/-- Embeds the method `Init` of `srv`, variadic in its arguments. -/
def Init (gs : srv) (w : World) (args : List Term) : Outcome Unit :=
  let ev := [Event.log "Init: %#v" [Term.slice args],
             Event.register (Term.atom "go_srv") gs.Self]
  match args[0]? with
  | none => ⟨ev, w, gs, .panicked "index out of range [0] with length 0"⟩
  | some (Term.chanBool c) => ⟨ev, w, { gs with completeChan := c }, .returned ()⟩
  | some _ => ⟨ev, w, gs, .panicked "interface conversion: interface is not chan bool"⟩

/-- Embeds `func (gs *srv) HandleCast(message *etf.Term)`; the pointer is
`none` when nil. -/
def HandleCast (gs : srv) (w : World) (message : Option Term) : Outcome Unit :=
  match message with
  | none => ⟨[], w, gs, .panicked "invalid memory address or nil pointer dereference"⟩
  | some m =>
    let ev := [Event.log "HandleCast: %#v" [m]]
    match m with
    | Term.tuple req =>
      if req.length > 0 then
        match req[0]? with
        | some (Term.atom act) =>
          if act = "ping" then
            let self_pid := gs.Self
            match req[1]? with
            | none => ⟨ev, w, gs, .panicked "index out of range [1] with length 1"⟩
            | some (Term.pid p) =>
              ⟨ev ++ [Event.send p (Term.tuple [Term.atom "pong", Term.pid self_pid])],
                w, gs, .returned ()⟩
            | some _ =>
              ⟨ev, w, gs, .panicked "interface conversion: interface is not etf.Pid"⟩
          else ⟨ev, w, gs, .returned ()⟩
        | _ => ⟨ev, w, gs, .returned ()⟩
      else ⟨ev, w, gs, .returned ()⟩
    | Term.atom req =>
      if req = "stop" then chanSendStmt ev gs w gs.completeChan true
      else ⟨ev, w, gs, .returned ()⟩
    | _ => ⟨ev, w, gs, .returned ()⟩

/-- Embeds `func (gs *srv) HandleCall(message *etf.Term, from *etf.Tuple)
(reply *etf.Term)`; pointers are `none` when nil. -/
def HandleCall (gs : srv) (w : World) (message : Option Term) (sender : Option (List Term)) :
    Outcome (Option Term) :=
  match message, sender with
  | none, _ => ⟨[], w, gs, .panicked "invalid memory address or nil pointer dereference"⟩
  | some _, none => ⟨[], w, gs, .panicked "invalid memory address or nil pointer dereference"⟩
  | some m, some c =>
    let replyTerm := Term.tuple [Term.atom "ok", Term.atom "go_reply", m]
    ⟨[Event.log "HandleCall: %#v, From: %#v" [m, Term.tuple c]], w, gs,
      .returned (some replyTerm)⟩

/-- Embeds `func (gs *srv) HandleInfo(message *etf.Term)`. -/
def HandleInfo (gs : srv) (w : World) (message : Option Term) : Outcome Unit :=
  match message with
  | none => ⟨[], w, gs, .panicked "invalid memory address or nil pointer dereference"⟩
  | some m => ⟨[Event.log "HandleInfo: %#v" [m]], w, gs, .returned ()⟩

/-- Embeds the method `Terminate` of `srv`: the assertion
`reason.(int)` is evaluated before the logger is called. -/
def Terminate (gs : srv) (w : World) (reason : Term) : Outcome Unit :=
  match reason with
  | Term.int n => ⟨[Event.log "Terminate: %#v" [Term.int n]], w, gs, .returned ()⟩
  | _ => ⟨[], w, gs, .panicked "interface conversion: interface is not int"⟩

/-- Embeds the closure `eClos` of `main`. -/
def eClos (terms : List Term) : Term :=
  Term.tuple [Term.atom "gonode", Term.atom "reply", Term.int terms.length]

/-! ## Projections of a trace -/

/-- Destinations and payloads of the outbound sends of a trace. -/
def sends : List Event → List (Pid × Term)
  | [] => []
  | Event.send p m :: es => (p, m) :: sends es
  | _ :: es => sends es

/-- Channels and values of the completed channel writes of a trace. -/
def writes : List Event → List (Chan × Bool)
  | [] => []
  | Event.chanSend c v :: es => (c, v) :: writes es
  | _ :: es => writes es

/-- Names and identities of the register calls of a trace. -/
def registers : List Event → List (Term × Pid)
  | [] => []
  | Event.register n p :: es => (n, p) :: registers es
  | _ :: es => registers es

/-! ## Configuration and the driver -/

/-- The package-level variables that the command line sets. -/
structure Globals where
  SrvName : String
  NodeName : String
  LogFile : String
  Cookie : String
  EpmdPort : Int
  EnableRPC : Bool
  PidFile : String

/-- The options given on the command line, `none` for an option left out. -/
structure CmdLine where
  log : Option String
  gen_server : Option String
  name : Option String
  cookie : Option String
  epmd_port : Option Int
  rpc : Option Bool
  pid_file : Option String

/-- Embeds `init()`: the value each flag is registered with. -/
def init : Globals :=
  { LogFile := "", SrvName := "go_srv", NodeName := "gonode@localhost", Cookie := "123",
    EpmdPort := 5588, EnableRPC := false, PidFile := "" }

/-- Embeds `flag.Parse()` over the flags of `init()`: a variable takes the
value of its option when given and keeps the registered value otherwise. -/
def flagParse (c : CmdLine) : Globals :=
  { LogFile := c.log.getD init.LogFile,
    SrvName := c.gen_server.getD init.SrvName,
    NodeName := c.name.getD init.NodeName,
    Cookie := c.cookie.getD init.Cookie,
    EpmdPort := c.epmd_port.getD init.EpmdPort,
    EnableRPC := c.rpc.getD init.EnableRPC,
    PidFile := c.pid_file.getD init.PidFile }

/-- What the surroundings answer to the driver: the command line, the
process id, the error (if any) of each fallible call, the channel that `make`
yields and the identity the node gives to the spawned process. -/
structure Env where
  cmd : CmdLine
  osPid : Nat
  createLogErr : Option String
  createPidErr : Option String
  publishErr : Option String
  chan : Chan
  self : Pid
  rpcErr : Option String

/-- Embeds `setup_logging()`; the flag is true when `log.Fatal` ended the
process. -/
def setup_logging (g : Globals) (env : Env) : List Event × Bool :=
  if g.LogFile ≠ "" then
    match env.createLogErr with
    | some e => ([Event.osCreate g.LogFile, Event.logln [Term.err e], Event.exit 1], true)
    | none => ([Event.osCreate g.LogFile, Event.setLogOutput g.LogFile], false)
  else ([], false)

/-- Embeds `write_pid()`; the flag is true when `log.Fatal` ended the
process. -/
def write_pid (g : Globals) (env : Env) : List Event × Bool :=
  let ev := [Event.logln [Term.str "process pid:", Term.int env.osPid]]
  if g.PidFile ≠ "" then
    match env.createPidErr with
    | some e => (ev ++ [Event.osCreate g.PidFile, Event.logln [Term.err e], Event.exit 1], true)
    | none =>
      (ev ++ [Event.osCreate g.PidFile, Event.fileWrite g.PidFile (toString env.osPid),
              Event.logln [Term.str "write pid in", Term.str g.PidFile],
              Event.fileClose g.PidFile], false)
  else (ev, false)

/-- Modelled from the spec: `Spawn` belongs to the node package, which is not
among the sources.  The spec says it instantiates and starts the actor,
invoking its initialisation callback with the given arguments, and yields the
process identity; the actor holds that identity as `Self`. -/
def Spawn (self : Pid) (pd : srv) (w : World) (args : List Term) : Outcome Unit :=
  let started := Init { pd with Self := self } w args
  { started with events := Event.spawn args :: started.events }

/-- Where the driver stands. -/
inductive DriverStatus where
  /-- Ended by `log.Fatal` or `log.Fatalf`, exit code 1. -/
  | fatal
  /-- Ended by a panic. -/
  | crashed (msg : String)
  /-- Suspended in `<-completeChan`. -/
  | waiting (c : Chan)
  /-- Returned from `main` with the exit code. -/
  | finished (code : Nat)
deriving DecidableEq, Repr

/-- The driver up to a point: its events, the actor it spawned, where it
stands. -/
structure DriverOutcome where
  events : List Event
  actor : Option srv
  status : DriverStatus

/-- Embeds `main()` up to the receive `<-completeChan`. -/
def main (env : Env) : DriverOutcome :=
  let g := flagParse env.cmd
  let logging := setup_logging g env
  if logging.2 then ⟨logging.1, none, .fatal⟩ else
  let pidfile := write_pid g env
  if pidfile.2 then ⟨logging.1 ++ pidfile.1, none, .fatal⟩ else
  let ev := logging.1 ++ pidfile.1 ++
    [Event.logln [Term.str "node started"], Event.newNode g.NodeName g.Cookie,
     Event.publish g.EpmdPort]
  match env.publishErr with
  | some e => ⟨ev ++ [Event.log "Cannot publish: %s" [Term.err e], Event.exit 1], none, .fatal⟩
  | none =>
    let completeChan := env.chan
    let eSrv : srv := ⟨⟨0⟩, none⟩
    let started := Spawn env.self eSrv ⟨[]⟩ [Term.chanBool (some completeChan)]
    let ev := ev ++ [Event.makeChan completeChan] ++ started.events
    match started.result with
    | .returned _ =>
      let rpc :=
        if g.EnableRPC then
          Event.rpcProvide "go_rpc" "call" ::
            (match env.rpcErr with
             | some e => [Event.log "Cannot provide function to RPC: %s" [Term.err e]]
             | none => [])
        else []
      ⟨ev ++ rpc, some started.state, .waiting completeChan⟩
    | .panicked msg => ⟨ev, some started.state, .crashed msg⟩
    | .blocked _ => ⟨ev, some started.state, .crashed "all goroutines are asleep"⟩

/-- Embeds the rest of `main()`, from the moment the receive `<-completeChan`
has got a value: the value is dropped, the line is logged and `main` returns, which
ends the process with exit code 0. -/
def mainResume (_received : Bool) : List Event × DriverStatus :=
  ([Event.logln [Term.str "node finished"]], .finished 0)

/-! ## The actor and the driver together -/

/-- The receives the driver has pending. -/
def pending : DriverStatus → World
  | .waiting c => ⟨[c]⟩
  | _ => ⟨[]⟩

/-- The running program: the joint trace, the actor state, whether the actor
can still take a message, and where the driver stands. -/
structure System where
  trace : List Event
  actor : srv
  alive : Bool
  driver : DriverStatus

/-- The value the driver receives from a callback, if its pending receive on
`c` was served: the first completed write on `c`. -/
def received (c : Chan) (evs : List Event) : Option Bool :=
  ((writes evs).find? (fun cv => cv.1 = c)).map (fun cv => cv.2)

/-- One delivery of a fire-and-forget message.  The callback runs against the
receives the driver has pending; a driver whose receive was served goes on to
the end of `main`.  After a callback that suspended, the actor takes no more
messages; after one that panicked it goes on exactly when `resume` is set
(the delivery loop belongs to the node package, not among the sources). -/
def deliverCast (resume : Bool) (s : System) (m : Term) : System :=
  if s.alive then
    let o := HandleCast s.actor (pending s.driver) (some m)
    let alive :=
      match o.result with
      | .returned _ => true
      | .panicked _ => resume
      | .blocked _ => false
    match s.driver with
    | .waiting c =>
      match received c o.events with
      | some v => ⟨s.trace ++ o.events ++ (mainResume v).1, o.state, alive, (mainResume v).2⟩
      | none => ⟨s.trace ++ o.events, o.state, alive, s.driver⟩
    | _ => ⟨s.trace ++ o.events, o.state, alive, s.driver⟩
  else s

/-- A sequence of deliveries, in order. -/
def runCasts (resume : Bool) (s : System) (ms : List Term) : System :=
  ms.foldl (deliverCast resume) s

/-- A system whose driver waits on `S`, whose actor has identity `self` and
holds `S`, after one delivery of the atom stop. -/
def afterStop (resume : Bool) (tr : List Event) (self : Pid) (S : Chan) : System :=
  deliverCast resume ⟨tr, ⟨self, some S⟩, true, .waiting S⟩ (Term.atom "stop")

/-- Whether an event is a call of `Publish`. -/
def isPublish : Event → Bool
  | Event.publish _ => true
  | _ => false

/-- Whether an event is a call of `Spawn`. -/
def isSpawn : Event → Bool
  | Event.spawn _ => true
  | _ => false

/-- Whether an event is a `make(chan bool)`. -/
def isMakeChan : Event → Bool
  | Event.makeChan _ => true
  | _ => false

/-- Whether an event is a call of `RpcProvide`. -/
def isRpcProvide : Event → Bool
  | Event.rpcProvide _ _ => true
  | _ => false

/-- The surroundings `env`, with the option `gen_server` of the command line
replaced. -/
def withSrvName (env : Env) (name : Option String) : Env :=
  { env with cmd := { env.cmd with gen_server := name } }

/-- A run with default options on which every call succeeds. -/
def quietEnv : Env :=
  { cmd := ⟨none, none, none, none, none, none, none⟩, osPid := 4242,
    createLogErr := none, createPidErr := none, publishErr := none,
    chan := ⟨0⟩, self := ⟨1⟩, rpcErr := none }

/-! ## Request and response -/

/-- C1: for every term value V, call context C, actor state and set of pending
receives, HandleCall returns a non-nil reply that is the 3-tuple of the atom
ok, the atom go_reply and V itself; it leaves the actor state and the pending
receives as they were, sends nothing and writes to no channel; and the reply
is the same under any other call context, actor state and pending receives. -/
theorem HandleCall_echo (gs gs2 : srv) (w w2 : World) (V : Term) (C C2 : List Term) :
    (HandleCall gs w (some V) (some C)).result
        = Result.returned (some (Term.tuple [Term.atom "ok", Term.atom "go_reply", V]))
      ∧ (HandleCall gs w (some V) (some C)).state = gs
      ∧ (HandleCall gs w (some V) (some C)).world = w
      ∧ sends (HandleCall gs w (some V) (some C)).events = []
      ∧ writes (HandleCall gs w (some V) (some C)).events = []
      ∧ (HandleCall gs2 w2 (some V) (some C2)).result
          = (HandleCall gs w (some V) (some C)).result := by
  simp [HandleCall, sends, writes]

/-! ## Fire-and-forget messages -/

/-- C2: for every process identity P, actor state and set of pending receives,
HandleCast on the tuple of the atom ping and P returns after one log line and
exactly one send through the node handle, to P, of the 2-tuple of the atom
pong and the identity Self of the actor; the actor state and the pending
receives are unchanged, no channel is written and nothing is registered. -/
theorem HandleCast_ping (gs : srv) (w : World) (P : Pid) :
    HandleCast gs w (some (Term.tuple [Term.atom "ping", Term.pid P]))
        = ⟨[Event.log "HandleCast: %#v" [Term.tuple [Term.atom "ping", Term.pid P]],
            Event.send P (Term.tuple [Term.atom "pong", Term.pid gs.Self])],
           w, gs, Result.returned ()⟩
      ∧ sends (HandleCast gs w (some (Term.tuple [Term.atom "ping", Term.pid P]))).events
          = [(P, Term.tuple [Term.atom "pong", Term.pid gs.Self])]
      ∧ writes (HandleCast gs w (some (Term.tuple [Term.atom "ping", Term.pid P]))).events = []
      ∧ registers (HandleCast gs w (some (Term.tuple [Term.atom "ping", Term.pid P]))).events
          = [] := by
  simp [HandleCast, sends, writes, registers]

/-- C3, at the inputs where it fails: on the 1-tuple holding the atom ping
HandleCast panics on the index 1, and on the 2-tuple of the atom ping and an
atom it panics on the type assertion; in both cases after the log line, with
no send and no channel write, the actor state unchanged. -/
theorem HandleCast_ping_malformed_panics (gs : srv) (w : World) :
    HandleCast gs w (some (Term.tuple [Term.atom "ping"]))
        = ⟨[Event.log "HandleCast: %#v" [Term.tuple [Term.atom "ping"]]], w, gs,
           Result.panicked "index out of range [1] with length 1"⟩
      ∧ HandleCast gs w (some (Term.tuple [Term.atom "ping", Term.atom "me"]))
        = ⟨[Event.log "HandleCast: %#v" [Term.tuple [Term.atom "ping", Term.atom "me"]]], w, gs,
           Result.panicked "interface conversion: interface is not etf.Pid"⟩ := by
  simp [HandleCast]

/-- Every message that is neither the atom stop nor a tuple whose first
element is the atom ping is logged and dropped: HandleCast returns after the
log line alone, with the actor state and the pending receives unchanged. -/
theorem HandleCast_other_ignored (gs : srv) (w : World) (M : Term)
    (hstop : M ≠ Term.atom "stop")
    (hping : ∀ rest, M ≠ Term.tuple (Term.atom "ping" :: rest)) :
    HandleCast gs w (some M)
      = ⟨[Event.log "HandleCast: %#v" [M]], w, gs, Result.returned ()⟩ := by
  unfold HandleCast
  cases M with
  | tuple req =>
    cases req with
    | nil => simp
    | cons hd tl =>
      cases hd with
      | atom act =>
        have hne : act ≠ "ping" := fun h => hping tl (by rw [h])
        simp [hne]
      | _ => simp
  | atom name =>
    have hne : name ≠ "stop" := fun h => hstop (by rw [h])
    simp [hne]
  | _ => simp

/-- A tuple headed by the atom pong is logged and dropped. -/
theorem HandleCast_other_ignored_witness :
    HandleCast ⟨⟨7⟩, none⟩ ⟨[]⟩ (some (Term.tuple [Term.atom "pong", Term.int 3]))
      = ⟨[Event.log "HandleCast: %#v" [Term.tuple [Term.atom "pong", Term.int 3]]], ⟨[]⟩,
         ⟨⟨7⟩, none⟩, Result.returned ()⟩ :=
  HandleCast_other_ignored ⟨⟨7⟩, none⟩ ⟨[]⟩ (Term.tuple [Term.atom "pong", Term.int 3])
    (by simp) (by simp)

/-! ## The RPC closure -/

/-- C6: for every list of terms, the empty list included, the RPC closure
returns the 3-tuple of the atom gonode, the atom reply and the number of
terms in the list; two lists of the same length give the same result. -/
theorem eClos_counts (terms other : List Term) (hlen : other.length = terms.length) :
    eClos terms = Term.tuple [Term.atom "gonode", Term.atom "reply", Term.int terms.length]
      ∧ eClos [] = Term.tuple [Term.atom "gonode", Term.atom "reply", Term.int 0]
      ∧ eClos other = eClos terms := by
  simp [eClos, hlen]

/-- C6 at the lists holding two atoms and holding a number and an empty
tuple. -/
theorem eClos_counts_witness :
    eClos [Term.atom "as", Term.atom "qwe"]
        = Term.tuple [Term.atom "gonode", Term.atom "reply", Term.int 2]
      ∧ eClos [Term.int 5, Term.tuple []] = eClos [Term.atom "as", Term.atom "qwe"] :=
  have h := eClos_counts [Term.atom "as", Term.atom "qwe"] [Term.int 5, Term.tuple []] rfl
  ⟨h.1, h.2.2⟩

/-! ## Initialisation and termination -/

/-- C7: for every channel S, Init called with S as its one argument returns
after one log line and exactly one register call, which binds the atom go_srv
to the identity Self of the actor; it keeps Self and leaves S in the field
completeChan, so that a later HandleCast on the atom stop, when a receive is
pending on S, writes true to S and to nothing else. -/
theorem Init_registers_and_stores (gs : srv) (w w2 : World) (S : Chan)
    (hrecv : S ∈ w2.recvWaiting) :
    (Init gs w [Term.chanBool (some S)]).result = Result.returned ()
      ∧ registers (Init gs w [Term.chanBool (some S)]).events = [(Term.atom "go_srv", gs.Self)]
      ∧ sends (Init gs w [Term.chanBool (some S)]).events = []
      ∧ writes (Init gs w [Term.chanBool (some S)]).events = []
      ∧ (Init gs w [Term.chanBool (some S)]).state = ⟨gs.Self, some S⟩
      ∧ writes (HandleCast (Init gs w [Term.chanBool (some S)]).state w2
          (some (Term.atom "stop"))).events = [(S, true)] := by
  simp [Init, HandleCast, chanSendStmt, registers, sends, writes, hrecv]

/-- C7 at the channel 4, for an actor of identity 9 that starts with a nil
channel, the later stop arriving while one receive is pending on channel 4. -/
theorem Init_registers_and_stores_witness :
    registers (Init ⟨⟨9⟩, none⟩ ⟨[]⟩ [Term.chanBool (some ⟨4⟩)]).events
        = [(Term.atom "go_srv", ⟨9⟩)]
      ∧ (Init ⟨⟨9⟩, none⟩ ⟨[]⟩ [Term.chanBool (some ⟨4⟩)]).state = ⟨⟨9⟩, some ⟨4⟩⟩
      ∧ writes (HandleCast (Init ⟨⟨9⟩, none⟩ ⟨[]⟩ [Term.chanBool (some ⟨4⟩)]).state ⟨[⟨4⟩]⟩
          (some (Term.atom "stop"))).events = [(⟨4⟩, true)] :=
  have h := Init_registers_and_stores ⟨⟨9⟩, none⟩ ⟨[]⟩ ⟨[⟨4⟩]⟩ ⟨4⟩ (by decide)
  ⟨h.2.1, h.2.2.2.2.1, h.2.2.2.2.2⟩

/-- C8 as stated fails: called with a reason that is a string, Terminate
panics on the type assertion, before any log line. -/
theorem Terminate_string_reason_panics :
    Terminate ⟨⟨1⟩, some ⟨0⟩⟩ ⟨[⟨0⟩]⟩ (Term.str "shutdown")
      = ⟨[], ⟨[⟨0⟩]⟩, ⟨⟨1⟩, some ⟨0⟩⟩,
         Result.panicked "interface conversion: interface is not int"⟩ := by
  rfl

/-- C8 amended: for every reason of dynamic type int, Terminate returns after
the one log line that carries the reason; it sends nothing, writes to no
channel, registers nothing, and leaves the actor state and the pending
receives unchanged.  For every reason of another dynamic type, Terminate
panics on the type assertion before anything is logged: no event at all, the
actor state and the pending receives unchanged. -/
theorem Terminate_by_reason_type (gs : srv) (w : World) (n : Int) (reason : Term)
    (hother : ∀ k, reason ≠ Term.int k) :
    (Terminate gs w (Term.int n)
        = ⟨[Event.log "Terminate: %#v" [Term.int n]], w, gs, Result.returned ()⟩
      ∧ sends (Terminate gs w (Term.int n)).events = []
      ∧ writes (Terminate gs w (Term.int n)).events = []
      ∧ registers (Terminate gs w (Term.int n)).events = [])
      ∧ Terminate gs w reason
          = ⟨[], w, gs, Result.panicked "interface conversion: interface is not int"⟩ := by
  refine ⟨by simp [Terminate, sends, writes, registers], ?_⟩
  cases reason with
  | int k => exact absurd rfl (hother k)
  | _ => rfl

/-- C8 amended, at the reason 15 and at the reason that is the atom normal,
for an actor of identity 1 holding channel 0 on which a receive is pending. -/
theorem Terminate_by_reason_type_witness :
    (∀ k, Term.atom "normal" ≠ Term.int k)
      ∧ Terminate ⟨⟨1⟩, some ⟨0⟩⟩ ⟨[⟨0⟩]⟩ (Term.int 15)
          = ⟨[Event.log "Terminate: %#v" [Term.int 15]], ⟨[⟨0⟩]⟩, ⟨⟨1⟩, some ⟨0⟩⟩,
             Result.returned ()⟩
      ∧ Terminate ⟨⟨1⟩, some ⟨0⟩⟩ ⟨[⟨0⟩]⟩ (Term.atom "normal")
          = ⟨[], ⟨[⟨0⟩]⟩, ⟨⟨1⟩, some ⟨0⟩⟩,
             Result.panicked "interface conversion: interface is not int"⟩ :=
  ⟨fun _ h => Term.noConfusion h,
   (Terminate_by_reason_type ⟨⟨1⟩, some ⟨0⟩⟩ ⟨[⟨0⟩]⟩ 15 (Term.atom "normal")
      (fun _ h => Term.noConfusion h)).1.1,
   (Terminate_by_reason_type ⟨⟨1⟩, some ⟨0⟩⟩ ⟨[⟨0⟩]⟩ 15 (Term.atom "normal")
      (fun _ h => Term.noConfusion h)).2⟩

/-! ## Shutdown -/

/-- Writes of a trace put after another. -/
theorem writes_append (xs ys : List Event) : writes (xs ++ ys) = writes xs ++ writes ys := by
  induction xs with
  | nil => rfl
  | cons x xs ih => cases x <;> simp [writes, ih]

/-- C4: let the actor have been started by Init with the channel S and let the
driver be suspended in its receive on S.  Then HandleCast on the atom stop
returns after writing true to S exactly once and sending nothing, the actor
state unchanged; that write serves the receive of the driver, which logs
node finished and returns from main with exit code 0. -/
theorem stop_releases_driver (resume : Bool) (tr : List Event) (gs0 : srv) (w0 : World)
    (S : Chan) :
    (Init gs0 w0 [Term.chanBool (some S)]).state = ⟨gs0.Self, some S⟩
      ∧ HandleCast ⟨gs0.Self, some S⟩ (pending (.waiting S)) (some (Term.atom "stop"))
        = ⟨[Event.log "HandleCast: %#v" [Term.atom "stop"], Event.chanSend S true],
           ⟨[]⟩, ⟨gs0.Self, some S⟩, Result.returned ()⟩
      ∧ writes (HandleCast ⟨gs0.Self, some S⟩ (pending (.waiting S))
          (some (Term.atom "stop"))).events = [(S, true)]
      ∧ sends (HandleCast ⟨gs0.Self, some S⟩ (pending (.waiting S))
          (some (Term.atom "stop"))).events = []
      ∧ received S (HandleCast ⟨gs0.Self, some S⟩ (pending (.waiting S))
          (some (Term.atom "stop"))).events = some true
      ∧ deliverCast resume ⟨tr, ⟨gs0.Self, some S⟩, true, .waiting S⟩ (Term.atom "stop")
        = ⟨tr ++ [Event.log "HandleCast: %#v" [Term.atom "stop"], Event.chanSend S true,
                  Event.logln [Term.str "node finished"]],
           ⟨gs0.Self, some S⟩, true, .finished 0⟩ := by
  simp [Init, HandleCast, chanSendStmt, pending, writes, sends, received, deliverCast,
    mainResume]

/-- The number of receives the driver has pending. -/
theorem pending_length_le (d : DriverStatus) : (pending d).recvWaiting.length ≤ 1 := by
  cases d <;> simp [pending]

/-- A callback run of HandleCast either writes to no channel, or it writes
true once, to a channel on which a receive was pending. -/
theorem HandleCast_writes (gs : srv) (w : World) (m : Term) :
    writes (HandleCast gs w (some m)).events = []
      ∨ ∃ c, c ∈ w.recvWaiting ∧ writes (HandleCast gs w (some m)).events = [(c, true)] := by
  unfold HandleCast chanSendStmt
  repeat' split
  all_goals first
    | (left; simp [writes]; done)
    | (right; refine ⟨_, ‹_›, ?_⟩; simp [writes])

/-- One delivery keeps the sum of the completed writes and the pending
receives of the driver from growing. -/
theorem deliverCast_budget (resume : Bool) (s : System) (m : Term) :
    (writes (deliverCast resume s m).trace).length
        + (pending (deliverCast resume s m).driver).recvWaiting.length
      ≤ (writes s.trace).length + (pending s.driver).recvWaiting.length := by
  obtain ⟨tr, actor, alive, driver⟩ := s
  cases alive with
  | false => simp [deliverCast]
  | true =>
    rcases HandleCast_writes actor (pending driver) m with h | ⟨c, hc, h⟩
    · cases driver <;> simp only [pending] at h <;>
        simp [deliverCast, received, h, writes_append, pending]
    · cases driver with
      | waiting c2 =>
        have hcc : c = c2 := by simpa [pending] using hc
        subst hcc
        simp only [pending] at h
        simp [deliverCast, received, h, writes_append, pending, mainResume, writes]
      | _ => simp [pending] at hc

/-- A sequence of deliveries keeps the same sum from growing. -/
theorem runCasts_budget (resume : Bool) (ms : List Term) (s : System) :
    (writes (runCasts resume s ms).trace).length
        + (pending (runCasts resume s ms).driver).recvWaiting.length
      ≤ (writes s.trace).length + (pending s.driver).recvWaiting.length := by
  induction ms generalizing s with
  | nil => simp [runCasts]
  | cons m ms ih =>
    have h1 := ih (deliverCast resume s m)
    have h2 := deliverCast_budget resume s m
    simp only [runCasts, List.foldl_cons] at h1 ⊢
    omega

/-- C5 as stated fails: after a first stop that the driver received, the
driver has returned and no receive is pending, and a second HandleCast on the
atom stop does not return; it is suspended on its send to channel 0, and the
actor takes no further message. -/
theorem second_stop_never_returns :
    (afterStop false [] ⟨1⟩ ⟨0⟩).driver = .finished 0
      ∧ (afterStop false [] ⟨1⟩ ⟨0⟩).alive = true
      ∧ HandleCast (afterStop false [] ⟨1⟩ ⟨0⟩).actor (pending (afterStop false [] ⟨1⟩ ⟨0⟩).driver)
          (some (Term.atom "stop"))
        = ⟨[Event.log "HandleCast: %#v" [Term.atom "stop"]], ⟨[]⟩, ⟨⟨1⟩, some ⟨0⟩⟩,
           Result.blocked (some ⟨0⟩)⟩
      ∧ (deliverCast false (afterStop false [] ⟨1⟩ ⟨0⟩) (Term.atom "stop")).alive = false := by
  simp [afterStop, deliverCast, HandleCast, chanSendStmt, pending, received, writes, mainResume]

/-- C5 amended: after a first stop that the driver received, the driver has
returned with exit code 0 and a second HandleCast on the atom stop does not
panic and does not return: after its log line it is suspended on the send,
on which no receive is pending, it writes nothing, and the actor takes no
further message.  Over any sequence of cast deliveries, from any system whose
trace holds no write yet, at most one write to a channel completes. -/
theorem stop_again_suspends (resume : Bool) (tr : List Event) (self : Pid) (S : Chan)
    (s : System) (ms : List Term) (hfresh : writes s.trace = []) :
    (afterStop resume tr self S).driver = .finished 0
      ∧ HandleCast (afterStop resume tr self S).actor (pending (afterStop resume tr self S).driver)
          (some (Term.atom "stop"))
        = ⟨[Event.log "HandleCast: %#v" [Term.atom "stop"]], ⟨[]⟩, ⟨self, some S⟩,
           Result.blocked (some S)⟩
      ∧ (deliverCast resume (afterStop resume tr self S) (Term.atom "stop")).alive = false
      ∧ writes (deliverCast resume (afterStop resume tr self S) (Term.atom "stop")).trace
          = writes (afterStop resume tr self S).trace
      ∧ (writes (runCasts resume s ms).trace).length ≤ 1 := by
  refine ⟨?_, ?_, ?_, ?_, ?_⟩
  · simp [afterStop, deliverCast, HandleCast, chanSendStmt, pending, received, writes,
      mainResume]
  · simp [afterStop, deliverCast, HandleCast, chanSendStmt, pending, received, writes,
      mainResume]
  · simp [afterStop, deliverCast, HandleCast, chanSendStmt, pending, received, writes,
      mainResume]
  · simp [afterStop, deliverCast, HandleCast, chanSendStmt, pending, received, writes,
      mainResume, writes_append]
  · have h := runCasts_budget resume ms s
    have hp := pending_length_le s.driver
    rw [hfresh] at h
    simp only [List.length_nil] at h
    omega

/-- C5 amended, for an actor of identity 1 holding channel 0 and a driver
waiting on it: three stops and a ping in a row complete one write only. -/
theorem stop_again_suspends_witness :
    writes (⟨[], ⟨⟨1⟩, some ⟨0⟩⟩, true, .waiting ⟨0⟩⟩ : System).trace = []
      ∧ (writes (runCasts true ⟨[], ⟨⟨1⟩, some ⟨0⟩⟩, true, .waiting ⟨0⟩⟩
          [Term.atom "stop", Term.atom "stop", Term.tuple [Term.atom "ping", Term.pid ⟨5⟩],
           Term.atom "stop"]).trace).length ≤ 1 :=
  ⟨rfl, (stop_again_suspends true [] ⟨1⟩ ⟨0⟩ ⟨[], ⟨⟨1⟩, some ⟨0⟩⟩, true, .waiting ⟨0⟩⟩
    [Term.atom "stop", Term.atom "stop", Term.tuple [Term.atom "ping", Term.pid ⟨5⟩],
     Term.atom "stop"] rfl).2.2.2.2⟩

/-! ## Startup -/

/-- C10: the register call of Init binds the atom go_srv, whatever the actor
state, the pending receives and the arguments; and a run of the driver is the
same, event for event, whatever the option gen_server of the command line
holds, so its register calls are the same too. -/
theorem register_name_is_go_srv (gs : srv) (w : World) (args : List Term) (env : Env)
    (name : Option String) :
    registers (Init gs w args).events = [(Term.atom "go_srv", gs.Self)]
      ∧ (flagParse (withSrvName env name).cmd).SrvName = name.getD "go_srv"
      ∧ (main (withSrvName env name)).events = (main env).events
      ∧ registers (main (withSrvName env name)).events = registers (main env).events
      ∧ (main (withSrvName env name)).status = (main env).status
      ∧ (main (withSrvName env name)).actor = (main env).actor := by
  have hmain : main (withSrvName env name) = main env := rfl
  refine ⟨?_, rfl, by rw [hmain], by rw [hmain], by rw [hmain], by rw [hmain]⟩
  unfold Init
  split <;> simp [registers]

/-- Register calls of a trace put after another. -/
theorem registers_append (xs ys : List Event) :
    registers (xs ++ ys) = registers xs ++ registers ys := by
  induction xs with
  | nil => rfl
  | cons x xs ih => cases x <;> simp [registers, ih]

/-- The events of `setup_logging` hold no call on the node, no channel and no
register call. -/
theorem setup_logging_quiet (g : Globals) (env : Env) :
    (setup_logging g env).1.any isPublish = false
      ∧ (setup_logging g env).1.any isSpawn = false
      ∧ (setup_logging g env).1.countP isMakeChan = 0
      ∧ (setup_logging g env).1.countP isSpawn = 0
      ∧ (setup_logging g env).1.countP isRpcProvide = 0
      ∧ registers (setup_logging g env).1 = [] := by
  unfold setup_logging
  repeat' split
  all_goals simp [isPublish, isSpawn, isMakeChan, isRpcProvide, registers]

/-- The events of `write_pid` hold no call on the node, no channel and no
register call. -/
theorem write_pid_quiet (g : Globals) (env : Env) :
    (write_pid g env).1.any isPublish = false
      ∧ (write_pid g env).1.any isSpawn = false
      ∧ (write_pid g env).1.countP isMakeChan = 0
      ∧ (write_pid g env).1.countP isSpawn = 0
      ∧ (write_pid g env).1.countP isRpcProvide = 0
      ∧ registers (write_pid g env).1 = [] := by
  unfold write_pid
  repeat' split
  all_goals simp [isPublish, isSpawn, isMakeChan, isRpcProvide, registers]

/-- An environment in which the discovery port is occupied. -/
def busyPortEnv : Env :=
  { quietEnv with publishErr := some "address already in use",
                  cmd := { quietEnv.cmd with rpc := some true } }

/-- An environment in which RPC is enabled and its registration fails. -/
def rpcFailEnv : Env :=
  { quietEnv with rpcErr := some "already registered",
                  cmd := { quietEnv.cmd with rpc := some true } }

/-- C9: take a run of the driver that reaches the call of Publish.  If Publish
returns an error, the run ends right there with the fatal log line and exit
code 1: no channel is made, no actor is spawned, no RPC closure is
registered and the driver does not reach its wait.  If Publish succeeds, the
driver makes the channel and spawns the actor with it exactly once, after
Publish; it registers the RPC closure once when RPC is enabled and not at all
otherwise; and, whether or not that registration returns an error, it reaches
its wait on the channel the actor holds. -/
theorem main_publish_gate (env : Env) (hreach : (main env).events.any isPublish = true) :
    (∀ e, env.publishErr = some e →
        (main env).status = .fatal
          ∧ (main env).actor = none
          ∧ (main env).events.countP isMakeChan = 0
          ∧ (main env).events.countP isSpawn = 0
          ∧ (main env).events.countP isRpcProvide = 0
          ∧ ∃ before, before.any isPublish = false
              ∧ (main env).events = before ++
                  [Event.publish (flagParse env.cmd).EpmdPort,
                   Event.log "Cannot publish: %s" [Term.err e], Event.exit 1])
      ∧ (env.publishErr = none →
          (main env).status = .waiting env.chan
            ∧ (main env).actor = some ⟨env.self, some env.chan⟩
            ∧ (main env).events.countP isSpawn = 1
            ∧ (main env).events.countP isMakeChan = 1
            ∧ (main env).events.countP isRpcProvide
                = (if (flagParse env.cmd).EnableRPC = true then 1 else 0)
            ∧ registers (main env).events = [(Term.atom "go_srv", env.self)]
            ∧ ∃ before after, before.any isSpawn = false ∧ after.any isSpawn = false
                ∧ after.any isPublish = false
                ∧ (main env).events = before ++
                    [Event.publish (flagParse env.cmd).EpmdPort, Event.makeChan env.chan,
                     Event.spawn [Term.chanBool (some env.chan)]] ++ after) := by
  obtain ⟨l1, l2, l3, l4, l5, l6⟩ := setup_logging_quiet (flagParse env.cmd) env
  obtain ⟨p1, p2, p3, p4, p5, p6⟩ := write_pid_quiet (flagParse env.cmd) env
  cases hl : (setup_logging (flagParse env.cmd) env).2 with
  | true => simp [main, hl, l1] at hreach
  | false =>
    cases hp : (write_pid (flagParse env.cmd) env).2 with
    | true => simp [main, hl, hp, l1, p1] at hreach
    | false =>
      constructor
      · intro e he
        simp only [main, hl, hp, he]
        refine ⟨rfl, rfl, ?_, ?_, ?_, ?_⟩
        · simp [l3, p3, isMakeChan]
        · simp [l4, p4, isSpawn]
        · simp [l5, p5, isRpcProvide]
        · refine ⟨(setup_logging (flagParse env.cmd) env).1 ++ (write_pid (flagParse env.cmd) env).1
            ++ [Event.logln [Term.str "node started"],
                Event.newNode (flagParse env.cmd).NodeName (flagParse env.cmd).Cookie], ?_, ?_⟩
          · simp [l1, p1, isPublish]
          · simp
      · intro he
        have hrun : main env
            = ⟨(setup_logging (flagParse env.cmd) env).1 ++ (write_pid (flagParse env.cmd) env).1
                ++ [Event.logln [Term.str "node started"],
                    Event.newNode (flagParse env.cmd).NodeName (flagParse env.cmd).Cookie,
                    Event.publish (flagParse env.cmd).EpmdPort]
                ++ [Event.makeChan env.chan]
                ++ [Event.spawn [Term.chanBool (some env.chan)],
                    Event.log "Init: %#v" [Term.slice [Term.chanBool (some env.chan)]],
                    Event.register (Term.atom "go_srv") env.self]
                ++ (if (flagParse env.cmd).EnableRPC = true then
                      Event.rpcProvide "go_rpc" "call" ::
                        (match env.rpcErr with
                         | some e => [Event.log "Cannot provide function to RPC: %s" [Term.err e]]
                         | none => [])
                    else []),
               some ⟨env.self, some env.chan⟩, .waiting env.chan⟩ := by
          simp [main, hl, hp, he, Spawn, Init]
        rw [hrun]
        refine ⟨rfl, rfl, ?_, ?_, ?_, ?_, ?_⟩
        · cases (flagParse env.cmd).EnableRPC <;> cases env.rpcErr <;>
            simp [l4, p4, isSpawn, List.countP_cons]
        · cases (flagParse env.cmd).EnableRPC <;> cases env.rpcErr <;>
            simp [l3, p3, isMakeChan, List.countP_cons]
        · cases (flagParse env.cmd).EnableRPC <;> cases env.rpcErr <;>
            simp [l5, p5, isRpcProvide, List.countP_cons]
        · cases (flagParse env.cmd).EnableRPC <;> cases env.rpcErr <;>
            simp [registers_append, l6, p6, registers]
        · refine ⟨(setup_logging (flagParse env.cmd) env).1 ++ (write_pid (flagParse env.cmd) env).1
              ++ [Event.logln [Term.str "node started"],
                  Event.newNode (flagParse env.cmd).NodeName (flagParse env.cmd).Cookie],
            [Event.log "Init: %#v" [Term.slice [Term.chanBool (some env.chan)]],
             Event.register (Term.atom "go_srv") env.self]
              ++ (if (flagParse env.cmd).EnableRPC = true then
                    Event.rpcProvide "go_rpc" "call" ::
                      (match env.rpcErr with
                       | some e => [Event.log "Cannot provide function to RPC: %s" [Term.err e]]
                       | none => [])
                  else []), ?_, ?_, ?_, ?_⟩
          · simp [l2, p2, isSpawn]
          · cases (flagParse env.cmd).EnableRPC <;> cases env.rpcErr <;> simp [isSpawn]
          · cases (flagParse env.cmd).EnableRPC <;> cases env.rpcErr <;> simp [isPublish]
          · simp

/-- C9 at two runs with default options and RPC enabled: with the discovery
port occupied the driver ends fatally and spawns nothing; with the RPC
registration failing it spawns once and reaches its wait on channel 0. -/
theorem main_publish_gate_witness :
    (main busyPortEnv).events.any isPublish = true
      ∧ (main busyPortEnv).status = .fatal
      ∧ (main busyPortEnv).events.countP isSpawn = 0
      ∧ (main rpcFailEnv).events.any isPublish = true
      ∧ (main rpcFailEnv).status = .waiting ⟨0⟩
      ∧ (main rpcFailEnv).events.countP isSpawn = 1 :=
  ⟨by decide,
   ((main_publish_gate busyPortEnv (by decide)).1 "address already in use" rfl).1,
   ((main_publish_gate busyPortEnv (by decide)).1 "address already in use" rfl).2.2.2.1,
   by decide,
   ((main_publish_gate rpcFailEnv (by decide)).2 rfl).1,
   ((main_publish_gate rpcFailEnv (by decide)).2 rfl).2.2.1⟩

end GoNode
